import Mathlib

/-!
Verification development for the stock-sentiment demo servers.

The repository contains three near-duplicate Express servers (a 15-result
variant, a 10-result "mizuho" variant with company-name lookup, and a
summarizing variant) plus two front ends.  This file gives a shallow
embedding of the request handlers and their helper functions, faithful to
the JavaScript semantics the handlers rely on: JS truthiness, the
short-circuiting "or" used for defaults, property-key string coercion in
the sentiment tally, first-occurrence string replace, and the throwing
URL constructor.  External effects (the search provider and the language
model) are parameters of the handler functions: each outbound call is an
explicit outcome value, error meaning the promise rejected or the reply
failed to parse.
-/

/-- JSON-style JavaScript value, as produced by JSON.parse.  Numbers are
modelled as integers (no claim depends on fractional values); objects are
modelled without fields since no handler reads properties of a parsed
object beyond array indexing. -/
inductive JVal where
  | jnull
  | jbool (b : Bool)
  | jnum (n : Int)
  | jstr (s : String)
  | jarr (elems : List JVal)
  | jobj

namespace JVal

/-- JS truthiness of a value: null, false, 0 and the empty string are
falsy, everything else (arrays and objects included) is truthy. -/
def truthy : JVal → Bool
  | jnull => false
  | jbool b => b
  | jnum n => n != 0
  | jstr s => !s.isEmpty
  | jarr _ => true
  | jobj => true

mutual

/-- JS ToString coercion, as applied to property keys: arrays join their
elements with commas (null rendering as the empty string), plain objects
render as the usual object placeholder. -/
def jsToString : JVal → String
  | jnull => "null"
  | jbool true => "true"
  | jbool false => "false"
  | jnum n => toString n
  | jstr s => s
  | jarr l => String.intercalate "," (jsToStringArr l)
  | jobj => "[object Object]"

/-- ToString of the elements of an array, joined by jsToString. -/
def jsToStringArr : List JVal → List String
  | [] => []
  | jnull :: xs => "" :: jsToStringArr xs
  | x :: xs => jsToString x :: jsToStringArr xs

end

/-- JS indexing v[i] for a natural index: arrays yield their element,
strings yield a one-character string, anything else (and any index past
the end) yields undefined, modelled as none. -/
def jIndex : JVal → Nat → Option JVal
  | jarr l, i => l.get? i
  | jstr s, i => (s.toList.get? i).map (fun c => jstr (String.mk [c]))
  | _, _ => none

end JVal

/-- Outcome of an awaited outbound call: err when the promise rejected
(or, for the oracle, when the reply could not be parsed), ok otherwise. -/
inductive Outcome (α : Type) where
  | err
  | ok (val : α)

namespace JsStr

/-- Whether the second character list starts the first one. -/
def startsWithChars : List Char → List Char → Bool
  | _, [] => true
  | [], _ :: _ => false
  | c :: cs, p :: ps => c = p && startsWithChars cs ps

/-- Index of the first occurrence of pat in s (over character lists),
none when pat does not occur; the empty pattern occurs at index 0,
matching the JS behaviour of String.replace and String.includes. -/
def firstOccurAux : List Char → List Char → Option Nat
  | s, pat =>
    if startsWithChars s pat then some 0
    else match s with
      | [] => none
      | _ :: rest => (firstOccurAux rest pat).map (· + 1)

/-- Index of the first occurrence of pat in s, none when absent. -/
def firstOccur (s pat : String) : Option Nat :=
  firstOccurAux s.toList pat.toList

/-- JS s.includes(pat). -/
def jsIncludes (s pat : String) : Bool :=
  (firstOccur s pat).isSome

/-- JS s.replace(pat, rep) with a string pattern: replaces only the first
occurrence, leaving s unchanged when pat does not occur. -/
def jsReplaceFirst (s pat rep : String) : String :=
  match firstOccur s pat with
  | none => s
  | some i =>
      String.mk (s.toList.take i) ++ rep ++ String.mk (s.toList.drop (i + pat.toList.length))

/-- ASCII uppercasing of a string, as JS toUpperCase acts on the ticker
strings this repository handles. -/
def jsToUpper (s : String) : String :=
  String.mk (s.toList.map Char.toUpper)

/-- Whitespace trimming of a string, as JS trim acts on the oracle reply
text. -/
def jsTrim (s : String) : String :=
  String.mk (((s.toList.dropWhile Char.isWhitespace).reverse.dropWhile
    Char.isWhitespace).reverse)

/-- Splitting a character list on a single separator character, matching
String.splitOn for one-character separators: n separators yield n plus
one pieces, empty pieces included. -/
def splitOnChar (sep : Char) : List Char → List (List Char)
  | [] => [[]]
  | c :: cs =>
    if c = sep then [] :: splitOnChar sep cs
    else match splitOnChar sep cs with
      | [] => [[c]]
      | piece :: pieces => (c :: piece) :: pieces

/-- Joining character-list pieces with a separator character, the
inverse of splitOnChar. -/
def joinSep (sep : Char) : List (List Char) → List Char
  | [] => []
  | [x] => x
  | x :: xs => x ++ sep :: joinSep sep xs

end JsStr

/-- Model of the WHATWG URL hostname read by the servers through
new URL(u).hostname, for the URL shapes this repository handles: none
when the constructor would throw (no scheme, a malformed scheme, a host
containing a space, or an http-family URL with an empty host), and the
lowercased hostname otherwise.  Percent decoding, punycode and IPv6
bracket hosts are outside the subset exercised here. -/
def urlHostname (u : String) : Option String :=
  match JsStr.splitOnChar ':' u.toList with
  | [] => none
  | [_] => none
  | scheme :: rest =>
    let schemeS := String.mk (scheme.map Char.toLower)
    if schemeS.isEmpty then none
    else if !((scheme.map Char.toLower).headD 'a').isAlpha then none
    else if !((scheme.map Char.toLower).all fun c => c.isAlphanum || c = '+' || c = '-' || c = '.') then
      none
    else
      let after := JsStr.joinSep ':' rest
      let special := schemeS = "http" || schemeS = "https" || schemeS = "ws" ||
        schemeS = "wss" || schemeS = "ftp" || schemeS = "file"
      let dbl := JsStr.startsWithChars after ['/', '/']
      if !special && !dbl then some ""
      else
        let body := if dbl then after.drop 2 else after
        let beforeSlash := (JsStr.splitOnChar '/' body).headD []
        let beforeQuery := (JsStr.splitOnChar '?' beforeSlash).headD []
        let authority := (JsStr.splitOnChar '#' beforeQuery).headD []
        let hostPort := ((JsStr.splitOnChar '@' authority).getLast?).getD authority
        let host := ((JsStr.splitOnChar ':' hostPort).headD []).map Char.toLower
        if host.any (fun c => c = ' ') then none
        else if special && schemeS != "file" && host.isEmpty then none
        else some (String.mk host)

/-- Raw result item as delivered by the search provider, with the fields
the handlers read; absent fields are none. -/
structure RawItem where
  title : Option String := none
  url : Option String := none
  text : Option String := none
  publishedDate : Option String := none
  author : Option String := none
  favicon : Option String := none
deriving Repr, DecidableEq

/-- Shaped item as assembled by the handlers and serialized to the
client.  A none field is one the handler did not put on the object (or
set to undefined); sentiment is a JS value because the classification
step can attach any truthy value the oracle produced. -/
structure Item where
  title : Option String := none
  url : Option String := none
  text : Option String := none
  publishedDate : Option String := none
  source : Option String := none
  favicon : Option String := none
  author : Option String := none
  sentiment : Option JVal := none

/-- JS truthiness of an optional string: present and non-empty. -/
def strTruthy : Option String → Bool
  | none => false
  | some s => !s.isEmpty

/-- Sentiment classification call shared verbatim by all three servers.
hasClient is whether getOpenAI() yields a client (the oracle credential
is configured); oracle is the outcome of the chat-completion call, err
covering a rejected call, a missing reply field and a JSON.parse failure
(all caught by the same try block), ok carrying the parsed JSON of the
reply text, which the function returns verbatim.  The ticker and
sourceType arguments of the source only shape the prompt text, so they
are omitted.  The second component counts outbound oracle calls. -/
def classifySentiment (hasClient : Bool) (items : List Item)
    (oracle : Outcome JVal) : JVal × Nat :=
  if !hasClient || items.isEmpty then
    (JVal.jarr (items.map fun _ => JVal.jstr "neutral"), 0)
  else
    match oracle with
    | Outcome.err => (JVal.jarr (items.map fun _ => JVal.jstr "neutral"), 1)
    | Outcome.ok v => (v, 1)

/-- The per-item default used when attaching classifications: the JS
expression classifications[i] || "neutral" keeps a present truthy value
and falls back to the neutral label on an absent or falsy one. -/
def jsOrNeutral : Option JVal → JVal
  | none => JVal.jstr "neutral"
  | some w => if w.truthy then w else JVal.jstr "neutral"

/-- The forEach loop item.sentiment = classifications[i] || "neutral"
starting at index n. -/
def assignFrom (cls : JVal) : Nat → List Item → List Item
  | _, [] => []
  | n, it :: rest =>
    { it with sentiment := some (jsOrNeutral (cls.jIndex n)) } :: assignFrom cls (n + 1) rest

/-- The forEach loop item.sentiment = classifications[i] || "neutral"
run over a shaped list with the classification value returned by
classifySentiment. -/
def assignSentiments (items : List Item) (cls : JVal) : List Item :=
  assignFrom cls 0 items

/-- Sentiment tally record. -/
structure SentimentTally where
  bullish : Nat
  neutral : Nat
  bearish : Nat
deriving Repr, DecidableEq

/-- Property key under which an item's sentiment is looked up by
counts.hasOwnProperty(item.sentiment) and counts[item.sentiment]++:
JS coerces the key with ToString; an absent field is undefined. -/
def sentimentKey : Option JVal → String
  | none => "undefined"
  | some v => v.jsToString

/-- One step of the countSentiments fold: the counter named by the
coerced key is incremented when the tally owns that property, and the
neutral counter otherwise. -/
def tallyAdd (t : SentimentTally) (item : Item) : SentimentTally :=
  let key := sentimentKey item.sentiment
  if key = "bullish" then { t with bullish := t.bullish + 1 }
  else if key = "neutral" then { t with neutral := t.neutral + 1 }
  else if key = "bearish" then { t with bearish := t.bearish + 1 }
  else { t with neutral := t.neutral + 1 }

/-- The countSentiments helper defined inside each search handler. -/
def countSentiments (items : List Item) : SentimentTally :=
  items.foldl tallyAdd ⟨0, 0, 0⟩

/-- Professional mapping of the search handlers: title, url, truncated
text, published date, source host and favicon.  The source field parses
a truthy url and removes the first occurrence of the www. label, and is
the Unknown sentinel on a falsy url; err models the TypeError thrown by
new URL on an unparsable url, which no surrounding guard catches.  The
highlights pass-through field is not modelled (no claim reads it). -/
def shapeProfessionalItem (r : RawItem) : Outcome Item :=
  if strTruthy r.url then
    match urlHostname (r.url.getD "") with
    | none => Outcome.err
    | some host =>
      Outcome.ok
        { title := r.title, url := r.url,
          text := r.text.map fun t => String.mk (t.toList.take 600),
          publishedDate := r.publishedDate,
          source := some (JsStr.jsReplaceFirst host "www." ""),
          favicon := r.favicon }
  else
    Outcome.ok
      { title := r.title, url := r.url,
        text := r.text.map fun t => String.mk (t.toList.take 600),
        publishedDate := r.publishedDate,
        source := some "Unknown",
        favicon := r.favicon }

/-- News mapping of the 15-result and 10-result variants: like the
professional mapping but with a 150 character text cap and no favicon. -/
def shapeNewsItem (r : RawItem) : Outcome Item :=
  if strTruthy r.url then
    match urlHostname (r.url.getD "") with
    | none => Outcome.err
    | some host =>
      Outcome.ok
        { title := r.title, url := r.url,
          text := r.text.map fun t => String.mk (t.toList.take 150),
          publishedDate := r.publishedDate,
          source := some (JsStr.jsReplaceFirst host "www." "") }
  else
    Outcome.ok
      { title := r.title, url := r.url,
        text := r.text.map fun t => String.mk (t.toList.take 150),
        publishedDate := r.publishedDate,
        source := some "Unknown" }

/-- Canonicalization applied to a social item url: when the url contains
twitter.com, its first occurrence is replaced by x.com. -/
def canonicalizeSocialUrl (u : String) : String :=
  if JsStr.jsIncludes u "twitter.com" then JsStr.jsReplaceFirst u "twitter.com" "x.com" else u

/-- Twitter mapping of the search handlers: url defaults to the empty
string and is canonicalized, text is capped at 280 characters, and the
author is carried; this path never parses a URL and cannot throw. -/
def shapeTwitterItem (r : RawItem) : Item :=
  { title := r.title,
    url := some (canonicalizeSocialUrl (r.url.getD "")),
    text := r.text.map fun t => String.mk (t.toList.take 280),
    publishedDate := r.publishedDate,
    author := r.author }

/-- Mapping a throwing shaper over a list: the first thrown error
escapes the whole map, as a JS exception does. -/
def shapeList (f : RawItem → Outcome Item) : List RawItem → Outcome (List Item)
  | [] => Outcome.ok []
  | r :: rs =>
    match f r with
    | Outcome.err => Outcome.err
    | Outcome.ok item =>
      match shapeList f rs with
      | Outcome.err => Outcome.err
      | Outcome.ok items => Outcome.ok (item :: items)

/-- Results list of a settled search promise: a rejected search was
replaced by a results-empty object by its catch handler, and the
handlers read results through a defaulting access, so err yields the
empty list. -/
def searchResults : Outcome (List RawItem) → List RawItem
  | Outcome.err => []
  | Outcome.ok l => l

/-- Server environment: whether the search-provider credential resolved
(EXA_API_KEY or EXASEARCH_API_KEY) and whether the oracle credential is
configured so that getOpenAI() yields a client. -/
structure Env where
  hasExaKey : Bool
  hasOpenAI : Bool

/-- Outcomes of the outbound calls one request of the 15-result variant
can make: the two parallel searches and the two parallel classification
calls. -/
structure World where
  proSearch : Outcome (List RawItem)
  twSearch : Outcome (List RawItem)
  proOracle : Outcome JVal
  twOracle : Outcome JVal

/-- Body of a 200 response of the search handlers.  The two timing
fields of the source (wall-clock millisecond differences) are outside a
shallow embedding and carry no claim, so they are omitted; companyName
and exchange are only produced by the mizuho variant and are none in the
15-result variant payloads. -/
structure SearchPayload where
  ticker : String
  companyName : Option String := none
  exchange : Option String := none
  totalResults : Nat
  professional : List Item
  twitter : List Item
  news : List Item
  proSentiment : SentimentTally
  twitterSentiment : SentimentTally

/-- HTTP result of a handler: the explicit 400 and 500 early returns,
the 200 JSON payload, and the 500 of the trailing catch block. -/
inductive ApiResponse where
  | badRequest (error : String)
  | serverError (error : String)
  | ok (payload : SearchPayload)

/-- Payload of a 200 response when there is one, none otherwise. -/
def ApiResponse.payloadOf : ApiResponse → Option SearchPayload
  | ApiResponse.ok p => some p
  | _ => none

/-- Status code of a response. -/
def ApiResponse.status : ApiResponse → Nat
  | ApiResponse.badRequest _ => 400
  | ApiResponse.serverError _ => 500
  | ApiResponse.ok _ => 200

/-- The 15-result variant of POST /api/search: guard the ticker and the
provider credential, run the two searches (a rejected search was caught
and yields no results), slice the combined professional results into the
first-10 analysis list and the 11th-to-15th news list, shape all three
lists, attach classifications, and assemble the payload.  A TypeError
thrown by new URL during shaping escapes to the trailing catch and
produces the generic 500. -/
def apiSearch (env : Env) (ticker : Option String) (w : World) : ApiResponse :=
  if !strTruthy ticker then ApiResponse.badRequest "Ticker symbol is required"
  else if !env.hasExaKey then ApiResponse.serverError "EXA_API_KEY not configured"
  else
    let upperTicker := JsStr.jsToUpper (ticker.getD "")
    let allProfessional := searchResults w.proSearch
    let twitterRaw := searchResults w.twSearch
    match shapeList shapeProfessionalItem (allProfessional.take 10),
        shapeList shapeNewsItem ((allProfessional.drop 10).take 5) with
    | Outcome.ok professionalBase, Outcome.ok news =>
      let twitterBase := twitterRaw.map shapeTwitterItem
      let proCls := classifySentiment env.hasOpenAI professionalBase w.proOracle
      let twCls := classifySentiment env.hasOpenAI twitterBase w.twOracle
      let professional := assignSentiments professionalBase proCls.1
      let twitter := assignSentiments twitterBase twCls.1
      ApiResponse.ok
        { ticker := upperTicker,
          totalResults := professional.length + twitter.length + news.length,
          professional := professional, twitter := twitter, news := news,
          proSentiment := countSentiments professional,
          twitterSentiment := countSentiments twitter }
    | _, _ => ApiResponse.serverError "Search failed"

/-- Company-name resolution of the mizuho and summarizing variants.
searchOutcome is the context search (err when the call rejected, its
results defaulting to the empty list when absent); oracleOutcome is the
extraction call, err covering a rejected call and a malformed reply.
Every failure path, and the no-result and no-client fall-throughs,
return the ticker unchanged; on success the trimmed oracle text is
returned.  The exchange argument only shapes queries and prompts and is
omitted. -/
def lookupCompanyName (hasClient : Bool) (searchOutcome : Outcome (List RawItem))
    (oracleOutcome : Outcome String) (ticker : String) : String :=
  match searchOutcome with
  | Outcome.err => ticker
  | Outcome.ok results =>
    if results.isEmpty then ticker
    else if !hasClient then ticker
    else
      match oracleOutcome with
      | Outcome.err => ticker
      | Outcome.ok reply => JsStr.jsTrim reply

/-- Outcomes of the outbound calls one request of the mizuho variant can
make: the company-lookup search and extraction, then the two searches
and the two classification calls. -/
structure WorldM where
  lookupSearch : Outcome (List RawItem)
  lookupOracle : Outcome String
  proSearch : Outcome (List RawItem)
  twSearch : Outcome (List RawItem)
  proOracle : Outcome JVal
  twOracle : Outcome JVal

/-- The mizuho variant of POST /api/search: same guards, a company-name
lookup before the searches, a 10-result combined professional query
sliced into the first-7 analysis list and the 8th-to-10th news list, and
a payload that also carries companyName (null when the lookup fell back
to the ticker) and the exchange defaulted to NASDAQ. -/
def apiSearchM (env : Env) (ticker exchange : Option String) (w : WorldM) : ApiResponse :=
  if !strTruthy ticker then ApiResponse.badRequest "Ticker symbol is required"
  else if !env.hasExaKey then ApiResponse.serverError "EXA_API_KEY not configured"
  else
    let upperTicker := JsStr.jsToUpper (ticker.getD "")
    let companyName := lookupCompanyName env.hasOpenAI w.lookupSearch w.lookupOracle upperTicker
    let allProfessional := searchResults w.proSearch
    let twitterRaw := searchResults w.twSearch
    match shapeList shapeProfessionalItem (allProfessional.take 7),
        shapeList shapeNewsItem ((allProfessional.drop 7).take 3) with
    | Outcome.ok professionalBase, Outcome.ok news =>
      let twitterBase := twitterRaw.map shapeTwitterItem
      let proCls := classifySentiment env.hasOpenAI professionalBase w.proOracle
      let twCls := classifySentiment env.hasOpenAI twitterBase w.twOracle
      let professional := assignSentiments professionalBase proCls.1
      let twitter := assignSentiments twitterBase twCls.1
      ApiResponse.ok
        { ticker := upperTicker,
          companyName := if companyName = upperTicker then none else some companyName,
          exchange := some (if strTruthy exchange then exchange.getD "" else "NASDAQ"),
          totalResults := professional.length + twitter.length + news.length,
          professional := professional, twitter := twitter, news := news,
          proSentiment := countSentiments professional,
          twitterSentiment := countSentiments twitter }
    | _, _ => ApiResponse.serverError "Search failed"

/-- Body of a 200 response of the enrich endpoint. -/
structure EnrichPayload where
  professional : List Item
  twitter : List Item
  proSentiment : SentimentTally
  twitterSentiment : SentimentTally

/-- Modelled from the spec: the POST /api/enrich route handler of the
two-request variant is not among the source files; only its caller, the
two-phase front end, is.  Per the spec the handler takes the submitted
professional and twitter lists back, performs the two classification
calls in parallel with the (present in source) classifySentiment, and
returns the same items in the same order, each now carrying a sentiment,
together with the two countSentiments tallies. -/
def apiEnrich (hasClient : Bool) (professional twitter : List Item)
    (proOracle twOracle : Outcome JVal) : EnrichPayload :=
  let proCls := classifySentiment hasClient professional proOracle
  let twCls := classifySentiment hasClient twitter twOracle
  let pro := assignSentiments professional proCls.1
  let tw := assignSentiments twitter twCls.1
  { professional := pro, twitter := tw,
    proSentiment := countSentiments pro,
    twitterSentiment := countSentiments tw }

section Lemmas

/-- The neutral label is a truthy value. -/
theorem neutral_truthy : (JVal.jstr "neutral").truthy = true := by decide

/-- The per-item default is always truthy: either the kept value was
truthy or the fallback is the non-empty neutral label. -/
theorem jsOrNeutral_truthy (o : Option JVal) : (jsOrNeutral o).truthy = true := by
  cases o with
  | none => exact neutral_truthy
  | some w =>
    by_cases hw : w.truthy = true
    · simp [jsOrNeutral, hw]
    · simp only [jsOrNeutral, hw, if_false, Bool.not_eq_true] at *
      simp [hw, neutral_truthy]

/-- The per-item default is the neutral label or the oracle value at the
index, kept only when truthy. -/
theorem jsOrNeutral_cases (o : Option JVal) :
    jsOrNeutral o = JVal.jstr "neutral" ∨ (o = some (jsOrNeutral o) ∧ (jsOrNeutral o).truthy = true) := by
  cases o with
  | none => exact Or.inl rfl
  | some w =>
    by_cases hw : w.truthy
    · exact Or.inr (by simp [jsOrNeutral, hw])
    · exact Or.inl (by simp [jsOrNeutral, hw])

theorem assignFrom_length (cls : JVal) (n : Nat) (items : List Item) :
    (assignFrom cls n items).length = items.length := by
  induction items generalizing n with
  | nil => rfl
  | cons it rest ih => simp [assignFrom, ih]

theorem assignFrom_get? (cls : JVal) (n : Nat) (items : List Item) (i : Nat) :
    (assignFrom cls n items).get? i
      = (items.get? i).map fun it => { it with sentiment := some (jsOrNeutral (cls.jIndex (n + i))) } := by
  induction items generalizing n i with
  | nil => rfl
  | cons it rest ih =>
    cases i with
    | zero => rfl
    | succ j =>
      have hn : n + (j + 1) = n + 1 + j := by omega
      show (assignFrom cls (n + 1) rest).get? j
        = (rest.get? j).map fun b => { b with sentiment := some (jsOrNeutral (cls.jIndex (n + (j + 1)))) }
      rw [hn]
      exact ih (n + 1) j

theorem assignSentiments_get? (cls : JVal) (items : List Item) (i : Nat) :
    (assignSentiments items cls).get? i
      = (items.get? i).map fun it => { it with sentiment := some (jsOrNeutral (cls.jIndex i)) } := by
  have h := assignFrom_get? cls 0 items i
  simpa [assignSentiments] using h

theorem assignSentiments_length (cls : JVal) (items : List Item) :
    (assignSentiments items cls).length = items.length :=
  assignFrom_length cls 0 items

/-- Every item produced by the assignment loop starting at any index
carries the defaulted value of some index. -/
theorem mem_assignFrom (cls : JVal) (items : List Item) (it : Item) :
    ∀ n, it ∈ assignFrom cls n items → ∃ j, it.sentiment = some (jsOrNeutral (cls.jIndex j)) := by
  induction items with
  | nil => intro n hn; simp [assignFrom] at hn
  | cons b rest ih =>
    intro n hn
    simp only [assignFrom, List.mem_cons] at hn
    rcases hn with h1 | h2
    · exact ⟨n, by rw [h1]⟩
    · exact ih (n + 1) h2

/-- Every item produced by the assignment loop carries the defaulted
value of some index. -/
theorem mem_assignSentiments (cls : JVal) (items : List Item) (it : Item)
    (h : it ∈ assignSentiments items cls) :
    ∃ j, it.sentiment = some (jsOrNeutral (cls.jIndex j)) :=
  mem_assignFrom cls items it 0 h

end Lemmas

/-- View of an outcome as an optional value. -/
def Outcome.toOpt {α : Type} : Outcome α → Option α
  | Outcome.err => none
  | Outcome.ok a => some a

/-- A successful shaping of a list shapes exactly the items of the input
list, position by position. -/
theorem shapeList_ok (f : RawItem → Outcome Item) (l : List RawItem) (l' : List Item)
    (h : shapeList f l = Outcome.ok l') :
    l'.length = l.length ∧ ∀ i, l'.get? i = (l.get? i).bind fun r => (f r).toOpt := by
  induction l generalizing l' with
  | nil =>
    cases l' with
    | nil => exact ⟨rfl, fun i => rfl⟩
    | cons x xs => simp [shapeList] at h
  | cons r rs ih =>
    unfold shapeList at h
    cases hf : f r with
    | err => rw [hf] at h; cases h
    | ok item =>
      rw [hf] at h
      cases hrest : shapeList f rs with
      | err => rw [hrest] at h; cases h
      | ok items =>
        rw [hrest] at h
        cases h
        obtain ⟨hlen, hget⟩ := ih items hrest
        refine ⟨by simp [hlen], fun i => ?_⟩
        cases i with
        | zero => simp [hf, Outcome.toOpt]
        | succ j => simpa using hget j

/-- Every item of a successful shaping is the successful image of some
raw result. -/
theorem mem_shapeList (f : RawItem → Outcome Item) (l : List RawItem) (l' : List Item)
    (h : shapeList f l = Outcome.ok l') (it : Item) (hm : it ∈ l') :
    ∃ r, f r = Outcome.ok it := by
  obtain ⟨-, hget⟩ := shapeList_ok f l l' h
  obtain ⟨⟨i, hi⟩, hgi⟩ := List.mem_iff_get.mp hm
  have h2 := hget i
  rw [List.get?_eq_get hi, hgi] at h2
  cases h3 : l.get? i with
  | none => rw [h3] at h2; cases h2
  | some r =>
    rw [h3] at h2
    have h5 : some it = (f r).toOpt := h2
    refine ⟨r, ?_⟩
    cases h4 : f r with
    | err => rw [h4] at h5; cases h5
    | ok v => rw [h4] at h5; cases h5; rfl

/-- Indexing the pre-filled neutral array always defaults to the neutral
label, on either side of its end. -/
theorem jIndex_neutralArr (items : List Item) (i : Nat) :
    jsOrNeutral ((JVal.jarr (items.map fun _ => JVal.jstr "neutral")).jIndex i)
      = JVal.jstr "neutral" := by
  simp only [JVal.jIndex]
  rw [List.get?_map]
  cases h : items.get? i with
  | none => rfl
  | some b => simp [jsOrNeutral, neutral_truthy]

/-- When the oracle is unconfigured, the input is empty, or the call or
its parse failed, the classification value is the pre-filled neutral
array. -/
theorem classifySentiment_neutralVal (hasClient : Bool) (items : List Item)
    (oracle : Outcome JVal)
    (h : hasClient = false ∨ items = [] ∨ oracle = Outcome.err) :
    (classifySentiment hasClient items oracle).1
      = JVal.jarr (items.map fun _ => JVal.jstr "neutral") := by
  rcases h with h | h | h
  · simp [classifySentiment, h]
  · simp [classifySentiment, h]
  · unfold classifySentiment
    by_cases h2 : (!hasClient || items.isEmpty) = true
    · rw [if_pos h2]
    · rw [if_neg h2, h]

/-- Attaching the pre-filled neutral array marks every item neutral. -/
theorem assignSentiments_neutralArr (items : List Item) (it : Item)
    (h : it ∈ assignSentiments items (JVal.jarr (items.map fun _ => JVal.jstr "neutral"))) :
    it.sentiment = some (JVal.jstr "neutral") := by
  obtain ⟨j, hj⟩ := mem_assignSentiments _ items it h
  rw [hj, jIndex_neutralArr]

/-- The tally key of an item coerces to the bullish label. -/
def isBullishKey (it : Item) : Bool := sentimentKey it.sentiment = "bullish"

/-- The tally key of an item coerces to the bearish label. -/
def isBearishKey (it : Item) : Bool := sentimentKey it.sentiment = "bearish"

/-- The item is folded into the neutral counter: its key is the neutral
label or any value outside the three owned properties. -/
def foldsNeutral (it : Item) : Bool := !(isBullishKey it) && !(isBearishKey it)

/-- The Bool tally predicates unfolded to propositional equations. -/
theorem isBullishKey_eq (b : Item) :
    isBullishKey b = true ↔ sentimentKey b.sentiment = "bullish" := by
  simp [isBullishKey]

theorem isBearishKey_eq (b : Item) :
    isBearishKey b = true ↔ sentimentKey b.sentiment = "bearish" := by
  simp [isBearishKey]

/-- No key is both the bullish and the bearish label. -/
theorem bullish_not_bearish (b : Item) (h : isBullishKey b = true) :
    isBearishKey b = false := by
  rw [isBullishKey_eq] at h
  simp [isBearishKey, h]

/-- One step of the fold increments exactly the counter selected by the
coerced key. -/
theorem tallyAdd_cases (t : SentimentTally) (b : Item) :
    (isBullishKey b = true ∧ tallyAdd t b = { t with bullish := t.bullish + 1 })
  ∨ (isBearishKey b = true ∧ tallyAdd t b = { t with bearish := t.bearish + 1 })
  ∨ (foldsNeutral b = true ∧ tallyAdd t b = { t with neutral := t.neutral + 1 }) := by
  by_cases h1 : sentimentKey b.sentiment = "bullish"
  · exact Or.inl ⟨by simp [isBullishKey, h1], by simp [tallyAdd, h1]⟩
  · by_cases h2 : sentimentKey b.sentiment = "bearish"
    · refine Or.inr (Or.inl ⟨by simp [isBearishKey, h2], ?_⟩)
      have h3 : sentimentKey b.sentiment ≠ "neutral" := by
        rw [h2]; decide
      simp [tallyAdd, h1, h2, h3]
    · refine Or.inr (Or.inr ⟨by simp [foldsNeutral, isBullishKey, isBearishKey, h1, h2], ?_⟩)
      by_cases h4 : sentimentKey b.sentiment = "neutral"
      · simp [tallyAdd, h1, h4]
      · simp [tallyAdd, h1, h2, h4]

/-- Closed form of the countSentiments fold from any accumulator. -/
theorem foldl_tallyAdd (items : List Item) (t : SentimentTally) :
    items.foldl tallyAdd t
      = ⟨t.bullish + (items.filter isBullishKey).length,
         t.neutral + (items.filter foldsNeutral).length,
         t.bearish + (items.filter isBearishKey).length⟩ := by
  induction items generalizing t with
  | nil => simp
  | cons b rest ih =>
    rw [List.foldl_cons, ih]
    rcases tallyAdd_cases t b with ⟨e, he⟩ | ⟨e, he⟩ | ⟨e, he⟩
    · have e2 : isBearishKey b = false := bullish_not_bearish b e
      have e3 : foldsNeutral b = false := by simp [foldsNeutral, e]
      rw [he]
      simp only [List.filter_cons, e, e2, e3]
      simp only [SentimentTally.mk.injEq]
      simp
      omega
    · have e2 : isBullishKey b = false := by
        by_cases hb : isBullishKey b = true
        · rw [bullish_not_bearish b hb] at e; cases e
        · simpa using hb
      have e3 : foldsNeutral b = false := by simp [foldsNeutral, e]
      rw [he]
      simp only [List.filter_cons, e, e2, e3]
      simp only [SentimentTally.mk.injEq]
      simp
      omega
    · have e2 : isBullishKey b = false := by
        have := e
        simp only [foldsNeutral, Bool.and_eq_true, Bool.not_eq_true'] at this
        exact this.1
      have e3 : isBearishKey b = false := by
        have := e
        simp only [foldsNeutral, Bool.and_eq_true, Bool.not_eq_true'] at this
        exact this.2
      rw [he]
      simp only [List.filter_cons, e, e2, e3]
      simp only [SentimentTally.mk.injEq]
      simp
      omega

/-- The three tally predicates partition any item list. -/
theorem tally_partition (items : List Item) :
    (items.filter isBullishKey).length + (items.filter foldsNeutral).length
      + (items.filter isBearishKey).length = items.length := by
  induction items with
  | nil => rfl
  | cons b rest ih =>
    rcases tallyAdd_cases ⟨0, 0, 0⟩ b with ⟨e, -⟩ | ⟨e, -⟩ | ⟨e, -⟩
    · have e2 : isBearishKey b = false := bullish_not_bearish b e
      have e3 : foldsNeutral b = false := by simp [foldsNeutral, e]
      simp only [List.filter_cons, e, e2, e3]
      simp
      omega
    · have e2 : isBullishKey b = false := by
        by_cases hb : isBullishKey b = true
        · rw [bullish_not_bearish b hb] at e; cases e
        · simpa using hb
      have e3 : foldsNeutral b = false := by simp [foldsNeutral, e]
      simp only [List.filter_cons, e, e2, e3]
      simp
      omega
    · have e2 : isBullishKey b = false := by
        have := e
        simp only [foldsNeutral, Bool.and_eq_true, Bool.not_eq_true'] at this
        exact this.1
      have e3 : isBearishKey b = false := by
        have := e
        simp only [foldsNeutral, Bool.and_eq_true, Bool.not_eq_true'] at this
        exact this.2
      simp only [List.filter_cons, e, e2, e3]
      simp
      omega

/-- Inversion of a 200 response of the 15-result handler: the guards
passed, both shapings succeeded, and every payload field is the value
assembled from them. -/
theorem apiSearch_ok_elim (env : Env) (t : Option String) (w : World) (p : SearchPayload)
    (h : apiSearch env t w = ApiResponse.ok p) :
    strTruthy t = true ∧ env.hasExaKey = true ∧
    ∃ proBase news,
      shapeList shapeProfessionalItem ((searchResults w.proSearch).take 10) = Outcome.ok proBase ∧
      shapeList shapeNewsItem (((searchResults w.proSearch).drop 10).take 5) = Outcome.ok news ∧
      p.professional = assignSentiments proBase (classifySentiment env.hasOpenAI proBase w.proOracle).1 ∧
      p.twitter = assignSentiments ((searchResults w.twSearch).map shapeTwitterItem)
        (classifySentiment env.hasOpenAI ((searchResults w.twSearch).map shapeTwitterItem) w.twOracle).1 ∧
      p.news = news ∧
      p.ticker = JsStr.jsToUpper (t.getD "") ∧
      p.totalResults = p.professional.length + p.twitter.length + p.news.length ∧
      p.proSentiment = countSentiments p.professional ∧
      p.twitterSentiment = countSentiments p.twitter := by
  unfold apiSearch at h
  cases h1 : strTruthy t with
  | false => rw [h1] at h; simp at h
  | true =>
    rw [h1] at h
    cases h2 : env.hasExaKey with
    | false => rw [h2] at h; simp at h
    | true =>
      rw [h2] at h
      simp only [Bool.not_true, Bool.false_eq_true, if_false] at h
      cases h3 : shapeList shapeProfessionalItem ((searchResults w.proSearch).take 10) with
      | err => rw [h3] at h; simp at h
      | ok proBase =>
        cases h4 : shapeList shapeNewsItem (((searchResults w.proSearch).drop 10).take 5) with
        | err => rw [h3, h4] at h; simp at h
        | ok news =>
          rw [h3, h4] at h
          simp only at h
          refine ⟨rfl, rfl, proBase, news, rfl, rfl, ?_⟩
          cases h
          exact ⟨rfl, rfl, rfl, rfl, rfl, rfl, rfl⟩

/-- Inversion of a 200 response of the mizuho handler: the guards
passed, both shapings of the 7-and-3 slices succeeded, and every payload
field is the value assembled from them. -/
theorem apiSearchM_ok_elim (env : Env) (t ex : Option String) (w : WorldM) (p : SearchPayload)
    (h : apiSearchM env t ex w = ApiResponse.ok p) :
    strTruthy t = true ∧ env.hasExaKey = true ∧
    ∃ proBase news,
      shapeList shapeProfessionalItem ((searchResults w.proSearch).take 7) = Outcome.ok proBase ∧
      shapeList shapeNewsItem (((searchResults w.proSearch).drop 7).take 3) = Outcome.ok news ∧
      p.professional = assignSentiments proBase (classifySentiment env.hasOpenAI proBase w.proOracle).1 ∧
      p.twitter = assignSentiments ((searchResults w.twSearch).map shapeTwitterItem)
        (classifySentiment env.hasOpenAI ((searchResults w.twSearch).map shapeTwitterItem) w.twOracle).1 ∧
      p.news = news ∧
      p.totalResults = p.professional.length + p.twitter.length + p.news.length ∧
      p.proSentiment = countSentiments p.professional ∧
      p.twitterSentiment = countSentiments p.twitter := by
  unfold apiSearchM at h
  cases h1 : strTruthy t with
  | false => rw [h1] at h; simp at h
  | true =>
    rw [h1] at h
    cases h2 : env.hasExaKey with
    | false => rw [h2] at h; simp at h
    | true =>
      rw [h2] at h
      simp only [Bool.not_true, Bool.false_eq_true, if_false] at h
      cases h3 : shapeList shapeProfessionalItem ((searchResults w.proSearch).take 7) with
      | err => rw [h3] at h; simp at h
      | ok proBase =>
        cases h4 : shapeList shapeNewsItem (((searchResults w.proSearch).drop 7).take 3) with
        | err => rw [h3, h4] at h; simp at h
        | ok news =>
          rw [h3, h4] at h
          simp only at h
          refine ⟨rfl, rfl, proBase, news, rfl, rfl, ?_⟩
          cases h
          exact ⟨rfl, rfl, rfl, rfl, rfl, rfl⟩

/-- Characterization of a successful professional shaping: the url is
passed through verbatim, no sentiment is attached, and the source field
is the Unknown sentinel exactly on a falsy url and the host with its
first www. occurrence removed otherwise. -/
theorem shapeProfessionalItem_ok_elim (r : RawItem) (it : Item)
    (h : shapeProfessionalItem r = Outcome.ok it) :
    it.url = r.url ∧ it.sentiment = none ∧
    ((strTruthy r.url = false ∧ it.source = some "Unknown")
      ∨ (∃ host, strTruthy r.url = true ∧ urlHostname (r.url.getD "") = some host ∧
          it.source = some (JsStr.jsReplaceFirst host "www." ""))) := by
  unfold shapeProfessionalItem at h
  cases h1 : strTruthy r.url with
  | false =>
    rw [h1] at h
    simp only [Bool.false_eq_true, if_false] at h
    cases h
    exact ⟨rfl, rfl, Or.inl ⟨rfl, rfl⟩⟩
  | true =>
    rw [h1] at h
    simp only [if_true] at h
    cases h2 : urlHostname (r.url.getD "") with
    | none => rw [h2] at h; cases h
    | some host =>
      rw [h2] at h
      cases h
      exact ⟨rfl, rfl, Or.inr ⟨host, rfl, rfl, rfl⟩⟩

/-- Characterization of a successful news shaping, identical to the
professional one for the fields the claims read. -/
theorem shapeNewsItem_ok_elim (r : RawItem) (it : Item)
    (h : shapeNewsItem r = Outcome.ok it) :
    it.url = r.url ∧ it.sentiment = none ∧
    ((strTruthy r.url = false ∧ it.source = some "Unknown")
      ∨ (∃ host, strTruthy r.url = true ∧ urlHostname (r.url.getD "") = some host ∧
          it.source = some (JsStr.jsReplaceFirst host "www." ""))) := by
  unfold shapeNewsItem at h
  cases h1 : strTruthy r.url with
  | false =>
    rw [h1] at h
    simp only [Bool.false_eq_true, if_false] at h
    cases h
    exact ⟨rfl, rfl, Or.inl ⟨rfl, rfl⟩⟩
  | true =>
    rw [h1] at h
    simp only [if_true] at h
    cases h2 : urlHostname (r.url.getD "") with
    | none => rw [h2] at h; cases h
    | some host =>
      rw [h2] at h
      cases h
      exact ⟨rfl, rfl, Or.inr ⟨host, rfl, rfl, rfl⟩⟩

/-- The professional shaping throws exactly on a truthy unparsable url. -/
theorem shapeProfessionalItem_err_iff (r : RawItem) :
    shapeProfessionalItem r = Outcome.err
      ↔ strTruthy r.url = true ∧ urlHostname (r.url.getD "") = none := by
  unfold shapeProfessionalItem
  cases h1 : strTruthy r.url with
  | false => simp
  | true =>
    simp only [if_true, true_and]
    cases h2 : urlHostname (r.url.getD "") with
    | none => simp
    | some host => simp

/-- Every item attached by the classification step carries a defined,
truthy sentiment, which is the neutral label unless a successfully
parsed oracle value supplied a truthy entry that is passed through
verbatim. -/
theorem sentiment_of_member (hasClient : Bool) (base : List Item) (oracle : Outcome JVal)
    (it : Item) (h : it ∈ assignSentiments base (classifySentiment hasClient base oracle).1) :
    ∃ v, it.sentiment = some v ∧ v.truthy = true ∧
      (v = JVal.jstr "neutral" ∨ ∃ u i, oracle = Outcome.ok u ∧ u.jIndex i = some v) := by
  obtain ⟨j, hj⟩ := mem_assignSentiments _ base it h
  refine ⟨_, hj, jsOrNeutral_truthy _, ?_⟩
  by_cases hc : (!hasClient || base.isEmpty) = true
  · left
    have hcls : (classifySentiment hasClient base oracle).1
        = JVal.jarr (base.map fun _ => JVal.jstr "neutral") := by
      unfold classifySentiment; rw [if_pos hc]
    rw [hcls]
    exact jIndex_neutralArr base j
  · cases ho : oracle with
    | err =>
      left
      have hcls : (classifySentiment hasClient base Outcome.err).1
          = JVal.jarr (base.map fun _ => JVal.jstr "neutral") := by
        unfold classifySentiment; rw [if_neg hc]
      rw [hcls]
      exact jIndex_neutralArr base j
    | ok u =>
      have hcls : (classifySentiment hasClient base (Outcome.ok u)).1 = u := by
        unfold classifySentiment; rw [if_neg hc]
      rw [hcls]
      rcases jsOrNeutral_cases (u.jIndex j) with hn | ⟨hu, -⟩
      · exact Or.inl hn
      · exact Or.inr ⟨u, j, rfl, hu⟩

/-- C1, counterexample: the claim that every item of a 200 response
carries one of the three labels for every possible oracle output is
false — a successfully parsed oracle array with the truthy out-of-set
entry "happy" is attached verbatim to the only professional item of a
200 response, and "happy" is none of the three labels. -/
theorem apiSearch_out_of_set_cx :
    (apiSearch ⟨true, true⟩ (some "aapl")
        { proSearch := Outcome.ok
            [{ title := some "T", url := some "https://www.marketwatch.com/a", text := some "x" }],
          twSearch := Outcome.ok [],
          proOracle := Outcome.ok (JVal.jarr [JVal.jstr "happy"]),
          twOracle := Outcome.err }).payloadOf.map (fun p => p.professional.map Item.sentiment)
      = some [some (JVal.jstr "happy")]
  ∧ ("happy" : String) ∉ (["bullish", "neutral", "bearish"] : List String) :=
  ⟨rfl, by decide⟩

/-- C1, amended: every item in the professional and twitter arrays of a
200 response of POST /api/search has a defined, truthy sentiment; it is
the neutral label whenever the oracle output was absent, malformed,
short, or falsy at the item's index, but a successfully parsed truthy
oracle entry — in or out of the three-label set — is attached verbatim. -/
theorem apiSearch_sentiment_defined (env : Env) (t : Option String) (w : World)
    (p : SearchPayload) (h : apiSearch env t w = ApiResponse.ok p) :
    (∀ it ∈ p.professional, ∃ v, it.sentiment = some v ∧ v.truthy = true ∧
        (v = JVal.jstr "neutral" ∨ ∃ u i, w.proOracle = Outcome.ok u ∧ u.jIndex i = some v))
  ∧ (∀ it ∈ p.twitter, ∃ v, it.sentiment = some v ∧ v.truthy = true ∧
        (v = JVal.jstr "neutral" ∨ ∃ u i, w.twOracle = Outcome.ok u ∧ u.jIndex i = some v)) := by
  obtain ⟨-, -, proBase, news, -, -, hp, htw, -, -, -, -, -⟩ := apiSearch_ok_elim env t w p h
  exact ⟨fun it hit => sentiment_of_member _ _ _ it (hp ▸ hit),
         fun it hit => sentiment_of_member _ _ _ it (htw ▸ hit)⟩

/-- Witness for the amended C1 theorem at a concrete request whose
oracle output is the out-of-set array consisting of "happy". -/
theorem apiSearch_sentiment_defined_witness :
    ∃ v, (Item.mk (some "T") (some "https://www.marketwatch.com/a") (some "x") none
        (some "marketwatch.com") none none (some (JVal.jstr "happy"))).sentiment = some v ∧
      v.truthy = true ∧
      (v = JVal.jstr "neutral"
        ∨ ∃ u i, (Outcome.ok (JVal.jarr [JVal.jstr "happy"]) : Outcome JVal) = Outcome.ok u
            ∧ u.jIndex i = some v) := by
  have h := apiSearch_sentiment_defined ⟨true, true⟩ (some "aapl")
    { proSearch := Outcome.ok
        [{ title := some "T", url := some "https://www.marketwatch.com/a", text := some "x" }],
      twSearch := Outcome.ok [],
      proOracle := Outcome.ok (JVal.jarr [JVal.jstr "happy"]),
      twOracle := Outcome.err }
    { ticker := "AAPL", totalResults := 1,
      professional := [Item.mk (some "T") (some "https://www.marketwatch.com/a") (some "x") none
        (some "marketwatch.com") none none (some (JVal.jstr "happy"))],
      twitter := [], news := [],
      proSentiment := ⟨0, 1, 0⟩, twitterSentiment := ⟨0, 0, 0⟩ } rfl
  exact h.1 _ (List.mem_singleton.mpr rfl)

/-- C2, counterexample: the part of the claim folding every out-of-set
sentiment value into neutral is false — the one-element array whose entry
is "bullish" is not any of the three labels (it is not even a string),
yet its JS property-key coercion is "bullish" and it is counted as
bullish. -/
theorem countSentiments_coerced_key_cx :
    countSentiments [{ sentiment := some (JVal.jarr [JVal.jstr "bullish"]) }] = ⟨1, 0, 0⟩
  ∧ ∀ s : String, JVal.jarr [JVal.jstr "bullish"] ≠ JVal.jstr s :=
  ⟨rfl, fun _ h => JVal.noConfusion h⟩

/-- C2, amended: for every item list the three tally counters sum to the
list length; the bullish and bearish counters count exactly the items
whose JS-coerced sentiment key equals that label (which a non-string
value such as the array ["bullish"] can also satisfy), and every other
item — the neutral label and every other value — is folded into the
neutral counter. -/
theorem countSentiments_characterization (items : List Item) :
    (countSentiments items).bullish + (countSentiments items).neutral
        + (countSentiments items).bearish = items.length
  ∧ (countSentiments items).bullish = (items.filter isBullishKey).length
  ∧ (countSentiments items).bearish = (items.filter isBearishKey).length
  ∧ (countSentiments items).neutral = (items.filter foldsNeutral).length := by
  have h := foldl_tallyAdd items ⟨0, 0, 0⟩
  unfold countSentiments
  rw [h]
  refine ⟨?_, by simp, by simp, by simp⟩
  simpa using tally_partition items

/-- C3: when the oracle client is unconfigured or the item list is
empty, classifySentiment returns the all-neutral array of matching
length and makes no outbound call. -/
theorem classifySentiment_fast_path (hasClient : Bool) (items : List Item)
    (oracle : Outcome JVal) (h : hasClient = false ∨ items = []) :
    classifySentiment hasClient items oracle
      = (JVal.jarr (List.replicate items.length (JVal.jstr "neutral")), 0) := by
  have hrep : (items.map fun _ => JVal.jstr "neutral")
      = List.replicate items.length (JVal.jstr "neutral") := by
    induction items with
    | nil => rfl
    | cons b rest ih => simp [List.replicate_succ, ih]
  rcases h with h | h
  · subst h
    simp [classifySentiment, hrep]
  · subst h
    simp [classifySentiment]

/-- Witness for C3: with no oracle credential and two items, the
classification returns two neutral labels and makes zero calls. -/
theorem classifySentiment_fast_path_witness :
    (false = false ∨ ([{ title := some "a" }, { title := some "b" }] : List Item) = [])
  ∧ classifySentiment false [{ title := some "a" }, { title := some "b" }] Outcome.err
      = (JVal.jarr (List.replicate 2 (JVal.jstr "neutral")), 0) :=
  ⟨Or.inl rfl, classifySentiment_fast_path false _ Outcome.err (Or.inl rfl)⟩

/-- C4, counterexample: three parts of the claim fail on the code.  A
truthy unparsable url makes new URL throw, failing the whole request
with the generic 500 instead of producing the Unknown sentinel; a URL
without network authority yields an empty source, refuting
non-emptiness; and the replace removes the first occurrence of "www."
anywhere in the host, not only a leading label. -/
theorem sourceHost_cx :
    apiSearch ⟨true, true⟩ (some "aapl")
        { proSearch := Outcome.ok [{ title := some "T", url := some "not a url" }],
          twSearch := Outcome.ok [], proOracle := Outcome.err, twOracle := Outcome.err }
      = ApiResponse.serverError "Search failed"
  ∧ shapeProfessionalItem { url := some "file:///tmp/a" }
      = Outcome.ok { url := some "file:///tmp/a", source := some "" }
  ∧ shapeProfessionalItem { url := some "https://x.www.com/page" }
      = Outcome.ok { url := some "https://x.www.com/page", source := some "x.com" } :=
  ⟨rfl, rfl, rfl⟩

/-- C4, amended: the source field of a shaped professional item is the
Unknown sentinel exactly when the url is absent or empty (falsy); on a
truthy parsable url it is the parsed hostname with the first occurrence
of "www." removed, which may be the empty string for a URL without a
network authority; a truthy unparsable url makes the shaping throw (the
request then fails with 500) rather than producing Unknown.  The
claimed marketwatch example holds. -/
theorem sourceHost_spec (r : RawItem) :
    (strTruthy r.url = false →
      ∃ it, shapeProfessionalItem r = Outcome.ok it ∧ it.source = some "Unknown")
  ∧ (∀ host, strTruthy r.url = true → urlHostname (r.url.getD "") = some host →
      ∃ it, shapeProfessionalItem r = Outcome.ok it ∧
        it.source = some (JsStr.jsReplaceFirst host "www." ""))
  ∧ (strTruthy r.url = true → urlHostname (r.url.getD "") = none →
      shapeProfessionalItem r = Outcome.err)
  ∧ (∃ it, shapeProfessionalItem { url := some "https://www.marketwatch.com/story/1" }
        = Outcome.ok it ∧ it.source = some "marketwatch.com") := by
  refine ⟨?_, ?_, ?_, ?_⟩
  · intro h1
    unfold shapeProfessionalItem
    rw [h1]
    exact ⟨_, rfl, rfl⟩
  · intro host h1 h2
    unfold shapeProfessionalItem
    rw [h1, h2]
    exact ⟨_, rfl, rfl⟩
  · intro h1 h2
    unfold shapeProfessionalItem
    rw [h1, h2]
    rfl
  · exact ⟨Item.mk none (some "https://www.marketwatch.com/story/1") none none
      (some "marketwatch.com") none none none, rfl, rfl⟩

/-- Witness for the amended C4 theorem at the claimed concrete url. -/
theorem sourceHost_spec_witness :
    ∃ it, shapeProfessionalItem ({ url := some "https://www.marketwatch.com/story/1" } : RawItem)
        = Outcome.ok it
      ∧ it.source = some (JsStr.jsReplaceFirst "www.marketwatch.com" "www." "") :=
  (sourceHost_spec { url := some "https://www.marketwatch.com/story/1" }).2.1
    "www.marketwatch.com" rfl rfl

/-- Positional access below the cap passes through a take. -/
theorem get?_take_of_lt {α : Type} (l : List α) (n i : Nat) (h : i < n) :
    (l.take n).get? i = l.get? i := by
  induction l generalizing n i with
  | nil => simp
  | cons a as ih =>
    cases n with
    | zero => omega
    | succ m =>
      cases i with
      | zero => rfl
      | succ j =>
        show (as.take m).get? j = as.get? j
        exact ih m j (by omega)

/-- Positional access into a drop shifts the index. -/
theorem get?_drop_add {α : Type} (l : List α) (n i : Nat) :
    (l.drop n).get? i = l.get? (n + i) := by
  induction l generalizing n with
  | nil => simp
  | cons a as ih =>
    cases n with
    | zero => simp
    | succ m =>
      have e : m + 1 + i = (m + i) + 1 := by omega
      rw [e]
      show (as.drop m).get? i = as.get? (m + i)
      exact ih m

/-- The item with its sentiment field removed, to compare a delivered
item with its pre-classification shape. -/
def stripSentiment (it : Item) : Item := { it with sentiment := none }

/-- Stripping the sentiment of the classified list recovers the shaped
list, position by position, when the shaped items carry no sentiment. -/
theorem strip_assign (base : List Item) (cls : JVal) (i : Nat)
    (hbase : ∀ it ∈ base, it.sentiment = none) :
    ((assignSentiments base cls).get? i).map stripSentiment = base.get? i := by
  rw [assignSentiments_get?]
  cases h : base.get? i with
  | none => rfl
  | some b =>
    have hb : b.sentiment = none := hbase b (List.get?_mem h)
    show some (stripSentiment { b with sentiment := some (jsOrNeutral (cls.jIndex i)) }) = some b
    cases b
    simp only [stripSentiment]
    simp only [Item.sentiment] at hb
    rw [hb]

/-- Professionally shaped items carry no sentiment. -/
theorem shapeList_professional_none (l : List RawItem) (l' : List Item)
    (h : shapeList shapeProfessionalItem l = Outcome.ok l') :
    ∀ it ∈ l', it.sentiment = none := by
  intro it hm
  obtain ⟨r, hr⟩ := mem_shapeList _ l l' h it hm
  exact (shapeProfessionalItem_ok_elim r it hr).2.1

/-- News shaped items carry no sentiment. -/
theorem shapeList_news_none (l : List RawItem) (l' : List Item)
    (h : shapeList shapeNewsItem l = Outcome.ok l') :
    ∀ it ∈ l', it.sentiment = none := by
  intro it hm
  obtain ⟨r, hr⟩ := mem_shapeList _ l l' h it hm
  exact (shapeNewsItem_ok_elim r it hr).2.1

/-- C5: the positional split of the combined professional result list
follows the variant policy exactly.  In the 15-result variant the
delivered analysis list is the shaping of positions 0 through 9 of the
provider order and the news list the shaping of positions 10 through 14;
in the 10-result variant the split is positions 0 through 6 and 7
through 9.  Position in the returned order is the only signal: item i of
each delivered list is the shaping of the raw result at the
corresponding provider position. -/
theorem slicing_policy (env : Env) (t ex : Option String) (w : World) (wm : WorldM)
    (p q : SearchPayload) (h : apiSearch env t w = ApiResponse.ok p)
    (hm : apiSearchM env t ex wm = ApiResponse.ok q) :
    (p.professional.length = min 10 (searchResults w.proSearch).length
      ∧ (∀ i, i < 10 → (p.professional.get? i).map stripSentiment
            = ((searchResults w.proSearch).get? i).bind fun r => (shapeProfessionalItem r).toOpt)
      ∧ p.news.length = min 5 ((searchResults w.proSearch).length - 10)
      ∧ (∀ i, i < 5 → p.news.get? i
            = ((searchResults w.proSearch).get? (10 + i)).bind fun r => (shapeNewsItem r).toOpt))
  ∧ (q.professional.length = min 7 (searchResults wm.proSearch).length
      ∧ (∀ i, i < 7 → (q.professional.get? i).map stripSentiment
            = ((searchResults wm.proSearch).get? i).bind fun r => (shapeProfessionalItem r).toOpt)
      ∧ q.news.length = min 3 ((searchResults wm.proSearch).length - 7)
      ∧ (∀ i, i < 3 → q.news.get? i
            = ((searchResults wm.proSearch).get? (7 + i)).bind fun r => (shapeNewsItem r).toOpt)) := by
  obtain ⟨-, -, proBase, news, hpro, hnews, hp, -, hpn, -, -, -, -⟩ :=
    apiSearch_ok_elim env t w p h
  obtain ⟨-, -, proBaseM, newsM, hproM, hnewsM, hpM, -, hpnM, -, -, -⟩ :=
    apiSearchM_ok_elim env t ex wm q hm
  obtain ⟨hlen, hget⟩ := shapeList_ok _ _ _ hpro
  obtain ⟨hlenN, hgetN⟩ := shapeList_ok _ _ _ hnews
  obtain ⟨hlenM, hgetM⟩ := shapeList_ok _ _ _ hproM
  obtain ⟨hlenNM, hgetNM⟩ := shapeList_ok _ _ _ hnewsM
  refine ⟨⟨?_, ?_, ?_, ?_⟩, ⟨?_, ?_, ?_, ?_⟩⟩
  · rw [hp, assignSentiments_length, hlen, List.length_take]
  · intro i hi
    rw [hp, strip_assign _ _ _ (shapeList_professional_none _ _ hpro), hget i,
      get?_take_of_lt _ 10 i hi]
  · rw [hpn, hlenN, List.length_take, List.length_drop]
  · intro i hi
    rw [hpn, hgetN i, get?_take_of_lt _ 5 i hi, get?_drop_add]
  · rw [hpM, assignSentiments_length, hlenM, List.length_take]
  · intro i hi
    rw [hpM, strip_assign _ _ _ (shapeList_professional_none _ _ hproM), hgetM i,
      get?_take_of_lt _ 7 i hi]
  · rw [hpnM, hlenNM, List.length_take, List.length_drop]
  · intro i hi
    rw [hpnM, hgetNM i, get?_take_of_lt _ 3 i hi, get?_drop_add]

/-- Witness for C5 at a concrete request of each variant. -/
theorem slicing_policy_witness :
    (SearchPayload.mk "A" none none 0 [] [] [] ⟨0, 0, 0⟩ ⟨0, 0, 0⟩).professional.length
        = min 10 (searchResults (Outcome.err : Outcome (List RawItem))).length
  ∧ (SearchPayload.mk "A" none (some "NASDAQ") 0 [] [] [] ⟨0, 0, 0⟩ ⟨0, 0, 0⟩).professional.length
        = min 7 (searchResults (Outcome.err : Outcome (List RawItem))).length := by
  have h := slicing_policy ⟨true, true⟩ (some "a") none
    ⟨Outcome.err, Outcome.err, Outcome.err, Outcome.err⟩
    ⟨Outcome.err, Outcome.err, Outcome.err, Outcome.err, Outcome.err, Outcome.err⟩
    (SearchPayload.mk "A" none none 0 [] [] [] ⟨0, 0, 0⟩ ⟨0, 0, 0⟩)
    (SearchPayload.mk "A" none (some "NASDAQ") 0 [] [] [] ⟨0, 0, 0⟩ ⟨0, 0, 0⟩) rfl rfl
  exact ⟨h.1.1, h.2.1⟩

/-- Whether the shaping phase of the 15-result handler throws: some
sliced professional or news result has a truthy unparsable url. -/
def shapingThrows (w : World) : Bool :=
  match shapeList shapeProfessionalItem ((searchResults w.proSearch).take 10),
      shapeList shapeNewsItem (((searchResults w.proSearch).drop 10).take 5) with
  | Outcome.ok _, Outcome.ok _ => false
  | _, _ => true

/-- A non-throwing shaping yields both shaped lists. -/
theorem shapingThrows_false_elim (w : World) (h : shapingThrows w = false) :
    ∃ proBase news,
      shapeList shapeProfessionalItem ((searchResults w.proSearch).take 10) = Outcome.ok proBase
      ∧ shapeList shapeNewsItem (((searchResults w.proSearch).drop 10).take 5)
          = Outcome.ok news := by
  unfold shapingThrows at h
  cases hpro : shapeList shapeProfessionalItem ((searchResults w.proSearch).take 10) with
  | err =>
    cases hnews : shapeList shapeNewsItem (((searchResults w.proSearch).drop 10).take 5) with
    | err => rw [hpro, hnews] at h; cases h
    | ok news => rw [hpro, hnews] at h; cases h
  | ok proBase =>
    cases hnews : shapeList shapeNewsItem (((searchResults w.proSearch).drop 10).take 5) with
    | err => rw [hpro, hnews] at h; cases h
    | ok news => exact ⟨proBase, news, rfl, rfl⟩

/-- With the guards passed and both shapings successful, the handler
returns the assembled 200 payload. -/
theorem apiSearch_eq_ok (env : Env) (t : Option String) (w : World)
    (proBase news : List Item)
    (h1 : strTruthy t = true) (h2 : env.hasExaKey = true)
    (hpro : shapeList shapeProfessionalItem ((searchResults w.proSearch).take 10)
      = Outcome.ok proBase)
    (hnews : shapeList shapeNewsItem (((searchResults w.proSearch).drop 10).take 5)
      = Outcome.ok news) :
    apiSearch env t w = ApiResponse.ok
      { ticker := JsStr.jsToUpper (t.getD ""),
        totalResults :=
          (assignSentiments proBase (classifySentiment env.hasOpenAI proBase w.proOracle).1).length
          + (assignSentiments ((searchResults w.twSearch).map shapeTwitterItem)
              (classifySentiment env.hasOpenAI ((searchResults w.twSearch).map shapeTwitterItem)
                w.twOracle).1).length
          + news.length,
        professional :=
          assignSentiments proBase (classifySentiment env.hasOpenAI proBase w.proOracle).1,
        twitter := assignSentiments ((searchResults w.twSearch).map shapeTwitterItem)
          (classifySentiment env.hasOpenAI ((searchResults w.twSearch).map shapeTwitterItem)
            w.twOracle).1,
        news := news,
        proSentiment := countSentiments
          (assignSentiments proBase (classifySentiment env.hasOpenAI proBase w.proOracle).1),
        twitterSentiment := countSentiments
          (assignSentiments ((searchResults w.twSearch).map shapeTwitterItem)
            (classifySentiment env.hasOpenAI ((searchResults w.twSearch).map shapeTwitterItem)
              w.twOracle).1) } := by
  unfold apiSearch
  rw [h1, h2]
  simp only [Bool.not_true, Bool.false_eq_true, if_false]
  rw [hpro, hnews]

/-- With the guards passed and a throwing shaping, the handler returns
the generic 500. -/
theorem apiSearch_eq_err (env : Env) (t : Option String) (w : World)
    (h1 : strTruthy t = true) (h2 : env.hasExaKey = true) (h3 : shapingThrows w = true) :
    apiSearch env t w = ApiResponse.serverError "Search failed" := by
  unfold apiSearch
  rw [h1, h2]
  simp only [Bool.not_true, Bool.false_eq_true, if_false]
  unfold shapingThrows at h3
  cases hpro : shapeList shapeProfessionalItem ((searchResults w.proSearch).take 10) with
  | err =>
    cases hnews : shapeList shapeNewsItem (((searchResults w.proSearch).drop 10).take 5) with
    | err => rfl
    | ok news => rfl
  | ok proBase =>
    cases hnews : shapeList shapeNewsItem (((searchResults w.proSearch).drop 10).take 5) with
    | err => rfl
    | ok news => rw [hpro, hnews] at h3; cases h3

/-- C6: POST /api/search returns a non-2xx response only on a missing
ticker (400), a missing provider credential (500), or an exception
escaping the inner guards (500 — in this handler exactly a throwing URL
parse during shaping); with a valid ticker and credential, a rejected
professional search still yields 200 with empty professional and news
lists, a rejected twitter search yields 200 with an empty twitter list
whenever shaping does not throw, and failing classification calls
degrade every sentiment to neutral in a still-200 response. -/
theorem apiSearch_failure_semantics (env : Env) (t : Option String) (w : World) :
    (strTruthy t = false → apiSearch env t w = ApiResponse.badRequest "Ticker symbol is required")
  ∧ (strTruthy t = true → env.hasExaKey = false →
      apiSearch env t w = ApiResponse.serverError "EXA_API_KEY not configured")
  ∧ (strTruthy t = true → env.hasExaKey = true →
      (apiSearch env t w = ApiResponse.serverError "Search failed" ↔ shapingThrows w = true))
  ∧ (strTruthy t = true → env.hasExaKey = true → shapingThrows w = false →
      ∃ p, apiSearch env t w = ApiResponse.ok p)
  ∧ (strTruthy t = true → env.hasExaKey = true → w.proSearch = Outcome.err →
      ∃ p, apiSearch env t w = ApiResponse.ok p ∧ p.professional = [] ∧ p.news = [])
  ∧ (strTruthy t = true → env.hasExaKey = true → w.twSearch = Outcome.err →
      shapingThrows w = false →
      ∃ p, apiSearch env t w = ApiResponse.ok p ∧ p.twitter = [])
  ∧ (strTruthy t = true → env.hasExaKey = true → shapingThrows w = false →
      w.proOracle = Outcome.err → w.twOracle = Outcome.err →
      ∃ p, apiSearch env t w = ApiResponse.ok p
        ∧ (∀ it ∈ p.professional, it.sentiment = some (JVal.jstr "neutral"))
        ∧ (∀ it ∈ p.twitter, it.sentiment = some (JVal.jstr "neutral"))) := by
  refine ⟨?_, ?_, ?_, ?_, ?_, ?_, ?_⟩
  · intro h1
    unfold apiSearch
    rw [h1]
    rfl
  · intro h1 h2
    unfold apiSearch
    rw [h1, h2]
    rfl
  · intro h1 h2
    constructor
    · intro hse
      cases h3 : shapingThrows w with
      | true => rfl
      | false =>
        obtain ⟨proBase, news, hpro, hnews⟩ := shapingThrows_false_elim w h3
        rw [apiSearch_eq_ok env t w proBase news h1 h2 hpro hnews] at hse
        cases hse
    · intro h3
      exact apiSearch_eq_err env t w h1 h2 h3
  · intro h1 h2 h3
    obtain ⟨proBase, news, hpro, hnews⟩ := shapingThrows_false_elim w h3
    exact ⟨_, apiSearch_eq_ok env t w proBase news h1 h2 hpro hnews⟩
  · intro h1 h2 h3
    have hpro : shapeList shapeProfessionalItem ((searchResults w.proSearch).take 10)
        = Outcome.ok [] := by rw [h3]; rfl
    have hnews : shapeList shapeNewsItem (((searchResults w.proSearch).drop 10).take 5)
        = Outcome.ok [] := by rw [h3]; rfl
    exact ⟨_, apiSearch_eq_ok env t w [] [] h1 h2 hpro hnews, rfl, rfl⟩
  · intro h1 h2 h3 h4
    obtain ⟨proBase, news, hpro, hnews⟩ := shapingThrows_false_elim w h4
    refine ⟨_, apiSearch_eq_ok env t w proBase news h1 h2 hpro hnews, ?_⟩
    show assignSentiments ((searchResults w.twSearch).map shapeTwitterItem) _ = []
    rw [h3]
    rfl
  · intro h1 h2 h3 hpo hto
    obtain ⟨proBase, news, hpro, hnews⟩ := shapingThrows_false_elim w h3
    refine ⟨_, apiSearch_eq_ok env t w proBase news h1 h2 hpro hnews, ?_, ?_⟩
    · intro it hit
      show it.sentiment = some (JVal.jstr "neutral")
      have hcls := classifySentiment_neutralVal env.hasOpenAI proBase w.proOracle
        (Or.inr (Or.inr hpo))
      rw [hcls] at hit
      exact assignSentiments_neutralArr proBase it hit
    · intro it hit
      show it.sentiment = some (JVal.jstr "neutral")
      have hcls := classifySentiment_neutralVal env.hasOpenAI
        ((searchResults w.twSearch).map shapeTwitterItem) w.twOracle (Or.inr (Or.inr hto))
      rw [hcls] at hit
      exact assignSentiments_neutralArr _ it hit

/-- Witness for C6: a concrete request with valid ticker, configured
credential and a rejected professional search still yields 200 with
empty professional and news lists. -/
theorem apiSearch_failure_semantics_witness :
    ∃ p, apiSearch ⟨true, true⟩ (some "msft")
        ⟨Outcome.err, Outcome.ok [], Outcome.err, Outcome.err⟩ = ApiResponse.ok p
      ∧ p.professional = [] ∧ p.news = [] :=
  (apiSearch_failure_semantics ⟨true, true⟩ (some "msft")
    ⟨Outcome.err, Outcome.ok [], Outcome.err, Outcome.err⟩).2.2.2.2.1 rfl rfl rfl

/-- C7 (spec-modelled): POST /api/enrich returns exactly as many
professional and twitter items as were submitted, in the submitted
order — item i of each returned list is the submitted item i, now
carrying a sentiment field — together with the two tallies. -/
theorem apiEnrich_round_trip (hasClient : Bool) (professional twitter : List Item)
    (proO twO : Outcome JVal) :
    (apiEnrich hasClient professional twitter proO twO).professional.length = professional.length
  ∧ (apiEnrich hasClient professional twitter proO twO).twitter.length = twitter.length
  ∧ (∀ i it, professional.get? i = some it →
      ∃ v, (apiEnrich hasClient professional twitter proO twO).professional.get? i
        = some { it with sentiment := some v })
  ∧ (∀ i it, twitter.get? i = some it →
      ∃ v, (apiEnrich hasClient professional twitter proO twO).twitter.get? i
        = some { it with sentiment := some v })
  ∧ (apiEnrich hasClient professional twitter proO twO).proSentiment
      = countSentiments (apiEnrich hasClient professional twitter proO twO).professional
  ∧ (apiEnrich hasClient professional twitter proO twO).twitterSentiment
      = countSentiments (apiEnrich hasClient professional twitter proO twO).twitter := by
  refine ⟨assignSentiments_length _ _, assignSentiments_length _ _, ?_, ?_, rfl, rfl⟩
  · intro i it hi
    refine ⟨jsOrNeutral ((classifySentiment hasClient professional proO).1.jIndex i), ?_⟩
    show (assignSentiments professional
      (classifySentiment hasClient professional proO).1).get? i = _
    rw [assignSentiments_get?, hi]
    rfl
  · intro i it hi
    refine ⟨jsOrNeutral ((classifySentiment hasClient twitter twO).1.jIndex i), ?_⟩
    show (assignSentiments twitter
      (classifySentiment hasClient twitter twO).1).get? i = _
    rw [assignSentiments_get?, hi]
    rfl

/-- Witness for C7 at one submitted professional item. -/
theorem apiEnrich_round_trip_witness :
    ∃ v, (apiEnrich false [{ title := some "a" }] [] Outcome.err Outcome.err).professional.get? 0
        = some (Item.mk (some "a") none none none none none none (some v)) :=
  (apiEnrich_round_trip false [{ title := some "a" }] [] Outcome.err Outcome.err).2.2.1 0
    { title := some "a" } rfl

/-- C8: company resolution returns the original ticker unchanged on a
rejected or failed context search, an empty result list, an unconfigured
oracle client, and a rejected or malformed extraction call. -/
theorem lookupCompanyName_fallback (hasClient : Bool) (s : Outcome (List RawItem))
    (o : Outcome String) (ticker : String)
    (h : s = Outcome.err ∨ s = Outcome.ok [] ∨ hasClient = false ∨ o = Outcome.err) :
    lookupCompanyName hasClient s o ticker = ticker := by
  rcases h with h | h | h | h
  · rw [h]; rfl
  · rw [h]; rfl
  · subst h
    cases s with
    | err => rfl
    | ok results =>
      unfold lookupCompanyName
      by_cases hr : results.isEmpty
      · simp [hr]
      · simp [hr]
  · subst h
    cases s with
    | err => rfl
    | ok results =>
      unfold lookupCompanyName
      by_cases hr : results.isEmpty
      · simp [hr]
      · by_cases hc : hasClient
        · simp [hr, hc]
        · simp [hr, hc]

/-- Witness for C8: with all failure conditions at once the resolution
falls back to the ticker. -/
theorem lookupCompanyName_fallback_witness :
    lookupCompanyName false Outcome.err Outcome.err "AAPL" = "AAPL" :=
  lookupCompanyName_fallback false Outcome.err Outcome.err "AAPL" (Or.inl rfl)

/-- C9: social-URL canonicalization replaces the literal, case-sensitive
first occurrence of twitter.com with x.com, and only the twitter path
does so: the professional and news mappings pass the url through
verbatim.  The claimed concrete example holds. -/
theorem social_url_canonicalization :
    (shapeTwitterItem { url := some "https://twitter.com/x/status/1" }).url
        = some "https://x.com/x/status/1"
  ∧ (∀ r : RawItem, (shapeTwitterItem r).url = some (canonicalizeSocialUrl (r.url.getD "")))
  ∧ (∀ r : RawItem, ∀ it, shapeProfessionalItem r = Outcome.ok it → it.url = r.url)
  ∧ (∀ r : RawItem, ∀ it, shapeNewsItem r = Outcome.ok it → it.url = r.url) := by
  refine ⟨rfl, fun r => rfl, ?_, ?_⟩
  · intro r it h
    exact (shapeProfessionalItem_ok_elim r it h).1
  · intro r it h
    exact (shapeNewsItem_ok_elim r it h).1

/-- Witness for C9: a professional item keeps its url verbatim. -/
theorem social_url_canonicalization_witness :
    ∃ it, shapeProfessionalItem ({ url := some "https://www.cnbc.com/a" } : RawItem)
        = Outcome.ok it ∧ it.url = some "https://www.cnbc.com/a" := by
  refine ⟨Item.mk none (some "https://www.cnbc.com/a") none none (some "cnbc.com")
    none none none, rfl, ?_⟩
  exact social_url_canonicalization.2.2.1 { url := some "https://www.cnbc.com/a" } _ rfl

/-- C10: in the 15-result variant every news item reaches the client
with no sentiment field at all; the tallies fold only the professional
and twitter arrays; and totalResults counts news items as well,
equalling the sum of the three list lengths. -/
theorem news_without_sentiment (env : Env) (t : Option String) (w : World)
    (p : SearchPayload) (h : apiSearch env t w = ApiResponse.ok p) :
    (∀ it ∈ p.news, it.sentiment = none)
  ∧ p.totalResults = p.professional.length + p.twitter.length + p.news.length
  ∧ p.proSentiment = countSentiments p.professional
  ∧ p.twitterSentiment = countSentiments p.twitter := by
  obtain ⟨-, -, proBase, news, hpro, hnews, -, -, hn, -, htot, hps, hts⟩ :=
    apiSearch_ok_elim env t w p h
  refine ⟨?_, htot, hps, hts⟩
  intro it hit
  rw [hn] at hit
  exact shapeList_news_none _ _ hnews it hit

/-- Witness for C10 at a concrete request. -/
theorem news_without_sentiment_witness :
    (SearchPayload.mk "TSLA" none none 0 [] [] [] ⟨0, 0, 0⟩ ⟨0, 0, 0⟩).totalResults
      = (SearchPayload.mk "TSLA" none none 0 [] [] [] ⟨0, 0, 0⟩ ⟨0, 0, 0⟩).professional.length
        + (SearchPayload.mk "TSLA" none none 0 [] [] [] ⟨0, 0, 0⟩ ⟨0, 0, 0⟩).twitter.length
        + (SearchPayload.mk "TSLA" none none 0 [] [] [] ⟨0, 0, 0⟩ ⟨0, 0, 0⟩).news.length :=
  (news_without_sentiment ⟨true, true⟩ (some "tsla")
    ⟨Outcome.err, Outcome.err, Outcome.err, Outcome.err⟩
    (SearchPayload.mk "TSLA" none none 0 [] [] [] ⟨0, 0, 0⟩ ⟨0, 0, 0⟩) rfl).2.1
